import Mathlib

/-!
Shallow embedding of the Fling client-side training code:
src/fling/component/client/base_client.py, src/fling/dataset/mnist.py and
src/fling/dataset/cifar100.py.

Modelling conventions: Python floats are modelled as rationals; the torch
model's parameter tensors as a single rational value; data loaders as
explicit batch lists; Python exceptions as Except values that carry the
object state at the moment of the raise (attribute writes on self persist
across an exception, as they do in Python).
-/

namespace Fling

/-- Python exceptions the embedded code can raise. -/
inductive PyError where
  | attributeError
  | runtimeError
deriving DecidableEq

/-- Optimizer section of the configuration (args.learn.optimizer). -/
structure OptimizerCfg where
  name : String
  momentum : ℚ
deriving DecidableEq

/-- Learn section of the configuration (args.learn). -/
structure LearnCfg where
  batch_size : Nat
  local_eps : Nat
  optimizer : OptimizerCfg
deriving DecidableEq

/-- Client section of the configuration (args.client). -/
structure ClientCfg where
  val_frac : ℚ
deriving DecidableEq

/-- The configuration object consumed by BaseClient. -/
structure Args where
  client : ClientCfg
  learn : LearnCfg
deriving DecidableEq

/-- The data section of the configuration, as the dynamic attribute map a
Python config object exposes: cfg.data.attr raises AttributeError when the
attribute is absent. -/
structure DataSection where
  attrs : List (String × String)
deriving DecidableEq

/-- Dynamic attribute access on the data section of the configuration. -/
def DataSection.getattr (s : DataSection) (k : String) : Except PyError String :=
  match s.attrs.lookup k with
  | some v => .ok v
  | none => .error .attributeError

/-- The configuration object consumed by the dataset adapters. -/
structure DataCfg where
  data : DataSection
deriving DecidableEq

/-- The arguments with which the underlying torchvision dataset is built by an
adapter constructor. -/
structure TorchvisionBuild where
  root : String
  train : Bool
  transform : String
  download : Bool
deriving DecidableEq

/-- Embedding of MNISTDataset constructor (src/fling/dataset/mnist.py lines
11-16): reads cfg.data.transforms, then builds the torchvision MNIST dataset
rooted at cfg.data.data_path. -/
def MNISTDataset.init (cfg : DataCfg) (train : Bool) : Except PyError TorchvisionBuild := do
  let t ← cfg.data.getattr "transforms"
  let p ← cfg.data.getattr "data_path"
  .ok { root := p, train := train, transform := t, download := true }

/-- Embedding of CIFAR100Dataset constructor (src/fling/dataset/cifar100.py
lines 11-16): reads cfg.data.transforms, then builds the torchvision CIFAR100
dataset rooted at cfg.data.data_pathpath, exactly as the source spells it. -/
def CIFAR100Dataset.init (cfg : DataCfg) (train : Bool) : Except PyError TorchvisionBuild := do
  let t ← cfg.data.getattr "transforms"
  let p ← cfg.data.getattr "data_pathpath"
  .ok { root := p, train := train, transform := t, download := true }

/-- A value returned by a dataset getitem: either a structured record with
fields input and class_id, or a bare (sample, label) pair as yielded by the
underlying torchvision dataset. -/
inductive Item (α : Type) where
  | record (input : α) (class_id : Nat)
  | rawPair (fst : α) (snd : Nat)
deriving DecidableEq

/-- Whether an item is the structured record form. -/
def Item.isRecord {α : Type} : Item α → Bool
  | .record _ _ => true
  | .rawPair _ _ => false

/-- Embedding of MNISTDataset getitem (mnist.py lines 21-22): returns
self.dataset[item], the bare pair the torchvision dataset yields; none models
the IndexError on an out-of-bounds index. -/
def MNISTDataset.getItem {α : Type} (dataset : List (α × Nat)) (item : Nat) :
    Option (Item α) :=
  (dataset[item]?).map fun p => Item.rawPair p.1 p.2

/-- Embedding of CIFAR100Dataset getitem (cifar100.py lines 21-22): returns
the record with input = self.dataset[item][0] and class_id =
self.dataset[item][1]. -/
def CIFAR100Dataset.getItem {α : Type} (dataset : List (α × Nat)) (item : Nat) :
    Option (Item α) :=
  (dataset[item]?).map fun p => Item.record p.1 p.2

/-- Embedding of the two adapters' len (mnist.py and cifar100.py lines 18-19):
returns len(self.dataset), the underlying dataset's length. -/
def adapterLen {α : Type} (dataset : List (α × Nat)) : Nat := dataset.length

/-- Modelled from the spec: the index-subset dataset view used for client-side
validation splitting ("a mutable ordered sequence of indexes defining the
active subset"). The class providing it is not among the given source files;
only its use in base_client.py lines 42-50 (reading and reassigning the
indexes attribute of the training shard) is. -/
structure IndexedDataset (α : Type) where
  base : List α
  indexes : List Nat
deriving DecidableEq

/-- Modelled from the spec: len() of the index-view adapter reflects only the
active index set. -/
def IndexedDataset.len {α : Type} (d : IndexedDataset α) : Nat := d.indexes.length

/-- Reassignment of the active index subset, as in real_train.indexes =
train_index (base_client.py lines 47-48). -/
def IndexedDataset.setIndexes {α : Type} (d : IndexedDataset α) (ixs : List Nat) :
    IndexedDataset α :=
  { d with indexes := ixs }

/-- Python int() applied to the value (1 - val_frac) * len(train_dataset) of
base_client.py lines 45-46; on the nonnegative values arising for
val_frac in [0, 1], truncation toward zero coincides with the floor. -/
def pyInt (q : ℚ) : Nat := q.floor.toNat

/-- The part of the BaseClient state established by its constructor that the
claims observe. -/
structure InitResult where
  sample_num : Nat
  train_index : List Nat
  val_index : Option (List Nat)
  has_test_loader : Bool
deriving DecidableEq

/-- Embedding of BaseClient constructor (base_client.py lines 26-56).
shuffled stands for the in-place result of random.shuffle(indexes): an
arbitrary permutation of the shard's index list, supplied as a parameter. -/
def clientInit {α : Type} (args : Args) (train_dataset : IndexedDataset α)
    (shuffled : List Nat) (has_test_dataset : Bool) : InitResult :=
  if args.client.val_frac = 0 then
    { sample_num := train_dataset.len
      train_index := train_dataset.indexes
      val_index := none
      has_test_loader := has_test_dataset }
  else
    let k := pyInt ((1 - args.client.val_frac) * (train_dataset.len : ℚ))
    let train_index := shuffled.take k
    let test_index := shuffled.drop k
    let real_train := train_dataset.setIndexes train_index
    { sample_num := real_train.len
      train_index := train_index
      val_index := some test_index
      has_test_loader := has_test_dataset }

/-- The configuration the spec documents for dataset adapters: the data
section exposes the fields transforms and data_path. -/
def documentedDataCfg : DataCfg :=
  ⟨⟨[("transforms", "default"), ("data_path", "./data")]⟩⟩

/-! ### Runtime embedding of BaseClient train / test / finetune -/

/-- The torch model as the client observes it: the parameter value, the
current device placement, and the training/eval mode flag. -/
structure Model where
  params : ℚ
  device : String
  training : Bool
deriving DecidableEq

/-- One record appended to a VariableMonitor: a name-to-value mapping for one
batch together with the batch-size weight. -/
structure MetricEntry where
  values : List (String × ℚ)
  weight : ℚ
deriving DecidableEq

/-- The VariableMonitor accumulator: the ordered list of appended records. -/
abbrev Monitor := List MetricEntry

/-- A reduced metrics mapping, as returned by variable_mean. -/
abbrev Metrics := List (String × ℚ)

-- The metric names tracked by a monitor, in order of first appearance.
def monitorNames (mon : Monitor) : List String :=
  (mon.foldl (fun acc e => acc ++ e.values.map Prod.fst) []).dedup

-- Accumulated (sum of value * weight, sum of weight) for one metric name.
def weightedSums (mon : Monitor) (n : String) : ℚ × ℚ :=
  mon.foldl
    (fun acc e =>
      match e.values.lookup n with
      | some v => (acc.1 + v * e.weight, acc.2 + e.weight)
      | none => acc)
    (0, 0)

/-- Modelled from the spec: VariableMonitor.variable_mean (fling.utils, not
among the given source files) returns, for each tracked name, the weighted
arithmetic mean sum(v_i * w_i) / sum(w_i) over the appended records; with no
appended records the result is empty. -/
def variableMean (mon : Monitor) : Metrics :=
  (monitorNames mon).map fun n => (n, (weightedSums mon n).1 / (weightedSums mon n).2)

/-- Python dict.update on metric mappings, as used for the per-epoch merge of
train and test metrics in finetune (base_client.py line 166): existing keys
take the updated values, new keys are appended. -/
def updateMetrics (a b : Metrics) : Metrics :=
  (a.map fun p =>
    match b.lookup p.1 with
    | some v => (p.1, v)
    | none => p)
    ++ b.filter fun p => (a.lookup p.1).isNone

/-- The BaseClient runtime state the claims observe: configuration, model
reference, device field, and the batch sequences the train and test data
loaders yield. test_batches is none when no test dataset was supplied, in
which case self.test_dataloader was never assigned (base_client.py lines
55-56). -/
structure ClientState where
  args : Args
  model : Model
  device : String
  sample_num : Nat
  train_batches : List ℚ
  test_batches : Option (List ℚ)
deriving DecidableEq

/-- One per-batch training step of train_step (base_client.py lines 58-73):
forward pass, loss, monitor append, and the optimizer update of the optimizer
built by fling.utils.get_optimizer (not among the given source files),
abstracted as a function of the learning rate, the optimizer state (momentum
buffer), the model parameters and the batch, returning the new optimizer
state, the new parameters and the appended entry. An Except.error models an
exception raised from inside the batch loop. -/
abbrev Step := ℚ → ℚ → ℚ → ℚ → Except PyError (ℚ × ℚ × MetricEntry)

/-- One per-batch evaluation of test_step (base_client.py lines 75-87): the
monitor entry computed from the parameters and the batch. -/
abbrev TestEval := ℚ → ℚ → MetricEntry

/-- One full pass of the per-batch loop over the training loader
(base_client.py lines 113-116 and 159-162). On an exception the optimizer
state and the parameters mutated so far are carried in the error, since the
in-place updates persist in Python. -/
def runPass (lr : ℚ) (step : Step) :
    ℚ → ℚ → List ℚ → Except (PyError × ℚ × ℚ) (ℚ × ℚ × Monitor)
  | o, w, [] => .ok (o, w, [])
  | o, w, bch :: rest =>
    match step lr o w bch with
    | .error e => .error (e, o, w)
    | .ok (o1, w1, entry) =>
      match runPass lr step o1 w1 rest with
      | .error e2 => .error e2
      | .ok (o2, w2, mon) => .ok (o2, w2, entry :: mon)

/-- The epoch loop of train (base_client.py line 112): local_eps passes over
the training loader, one shared optimizer and one shared monitor. -/
def runEpochs (lr : ℚ) (step : Step) :
    Nat → ℚ → ℚ → List ℚ → Except (PyError × ℚ × ℚ) (ℚ × ℚ × Monitor)
  | 0, o, w, _ => .ok (o, w, [])
  | n + 1, o, w, batches =>
    match runPass lr step o w batches with
    | .error e => .error e
    | .ok (o1, w1, mon) =>
      match runEpochs lr step n o1 w1 batches with
      | .error e2 => .error e2
      | .ok (o2, w2, mon2) => .ok (o2, w2, mon ++ mon2)

/-- Embedding of BaseClient.train (base_client.py lines 92-127): optionally
override self.device for the call, switch the model to train mode and move it
to the device, run local_eps epochs with a fresh optimizer (momentum buffer
0), reduce the monitor, move the model to cpu and restore the device
override. An exception from the batch loop propagates with the override
still in place and the model left on the accelerator: the source has no
try/finally. -/
def train (c : ClientState) (lr : ℚ) (device : Option String) (step : Step) :
    Except (PyError × ClientState) (Metrics × ClientState) :=
  let dev := device.getD c.device
  let m1 : Model := { c.model with training := true, device := dev }
  match runEpochs lr step c.args.learn.local_eps 0 m1.params c.train_batches with
  | .error (e, _, w) =>
    .error (e, { c with device := dev, model := { m1 with params := w } })
  | .ok (_, w, mon) =>
    .ok (variableMean mon,
      { c with device := c.device, model := { m1 with params := w, device := "cpu" } })

/-- Embedding of BaseClient.test (base_client.py lines 175-198): eval mode,
move to self.device, iterate the test loader without gradients, reduce the
monitor, move the model to cpu. When the client was constructed without a
test dataset the loop header touches the never-assigned self.test_dataloader
and raises AttributeError, leaving the model on self.device in eval mode. -/
def test (c : ClientState) (tev : TestEval) :
    Except (PyError × ClientState) (Metrics × ClientState) :=
  let m1 : Model := { c.model with training := false, device := c.device }
  match c.test_batches with
  | none => .error (.attributeError, { c with model := m1 })
  | some bs =>
    let mon : Monitor := bs.map fun bch => tev m1.params bch
    .ok (variableMean mon, { c with model := { m1 with device := "cpu" } })

/-- The epoch loop of finetune (base_client.py lines 155-167): each epoch
switches the model to train mode on self.device, runs one pass over the
training loader with a fresh monitor, then calls self.test() and records the
merged train+test metrics for the epoch. -/
def finetuneLoop (lr : ℚ) (step : Step) (tev : TestEval) :
    Nat → ℚ → ClientState → Except (PyError × ClientState) (List Metrics × ClientState)
  | 0, _, c => .ok ([], c)
  | n + 1, o, c =>
    let m1 : Model := { c.model with training := true, device := c.device }
    match runPass lr step o m1.params c.train_batches with
    | .error (e, _, w) => .error (e, { c with model := { m1 with params := w } })
    | .ok (o1, w, mon) =>
      let c1 : ClientState := { c with model := { m1 with params := w } }
      match test c1 tev with
      | .error e2 => .error e2
      | .ok (tm, c2) =>
        match finetuneLoop lr step tev n o1 c2 with
        | .error e3 => .error e3
        | .ok (infos, c3) => .ok (updateMetrics (variableMean mon) tm :: infos, c3)

/-- Embedding of BaseClient.finetune (base_client.py lines 129-173): snapshot
the whole model (copy.deepcopy), optionally override the device, select the
finetunable weights (get_finetune_parameters, folded into the abstract step),
run finetune_eps epochs (defaulting to args.learn.local_eps), and on normal
completion restore the snapshot model and the original device. An exception
propagates with the partially finetuned model and the device override still
in place: the source has no try/finally. -/
def finetune (c : ClientState) (lr : ℚ) (finetune_args : List String)
    (device : Option String) (finetune_eps : Option Nat) (step : Step) (tev : TestEval) :
    Except (PyError × ClientState) (List Metrics × ClientState) :=
  let dev := device.getD c.device
  let model_bak := c.model
  let c0 : ClientState :=
    { c with device := dev, model := { c.model with training := true, device := dev } }
  let eps := finetune_eps.getD c.args.learn.local_eps
  match finetuneLoop lr step tev eps 0 c0 with
  | .error e => .error e
  | .ok (info, c1) => .ok (info, { c1 with model := model_bak, device := c.device })

/-- Modelled from the spec: the stochastic-gradient-descent optimizer
produced by get_optimizer (fling.utils, not among the given source files), as
one per-batch update: the momentum buffer becomes momentum * buffer +
gradient, and the parameter moves opposite the buffer scaled by the learning
rate. The per-batch gradient is supplied by the batch value itself (the
gradient oracle of the cross-entropy loss for that batch), and the appended
entry carries the batch metrics with weight 1. -/
def sgdStep (momentum : ℚ) : Step := fun lr o w bch =>
  let buf := momentum * o + bch
  .ok (buf, w - lr * buf, ⟨[("train_acc", 0), ("train_loss", bch)], 1⟩)

/-- A per-batch training step that raises, modelling an exception (for
example accelerator out-of-memory) from inside the batch loop. -/
def raisingStep : Step := fun _ _ _ _ => .error .runtimeError

/-- A per-batch training step built from a total update function: a step that
never raises. -/
def liftStep (f : ℚ → ℚ → ℚ → ℚ → ℚ × ℚ × MetricEntry) : Step :=
  fun lr o w bch => .ok (f lr o w bch)

/-- A never-raising step that keeps the parameters and appends an entry with
no tracked names, so that downstream metric reductions stay empty. -/
def okStep : Step := liftStep fun _ o w _ => (o, w, ⟨[], 1⟩)

/-- A test evaluation appending an entry with no tracked names. -/
def tevOk : TestEval := fun _ _ => ⟨[], 1⟩

/-- A concrete client used for closed runs: one training batch, a test
loader, one local epoch. -/
def cW : ClientState :=
  { args := ⟨⟨0⟩, ⟨4, 1, ⟨"sgd", 0⟩⟩⟩
    model := ⟨3, "cpu", false⟩
    device := "cpu"
    sample_num := 1
    train_batches := [1]
    test_batches := some [2] }

/-- A concrete client with zero local epochs. -/
def cZeroEps : ClientState :=
  { args := ⟨⟨0⟩, ⟨4, 0, ⟨"sgd", 0⟩⟩⟩
    model := ⟨3, "cpu", false⟩
    device := "cpu"
    sample_num := 1
    train_batches := [1]
    test_batches := some [2] }

/-- A concrete client for the learning-rate-zero counterexample. -/
def cLrZero : ClientState :=
  { args := ⟨⟨0⟩, ⟨4, 1, ⟨"sgd", 0⟩⟩⟩
    model := ⟨7, "cpu", false⟩
    device := "cpu"
    sample_num := 1
    train_batches := [2]
    test_batches := some [2] }

/-- A concrete client for the exception-path counterexample. -/
def cRaise : ClientState :=
  { args := ⟨⟨0⟩, ⟨4, 1, ⟨"sgd", 0⟩⟩⟩
    model := ⟨9, "cpu", false⟩
    device := "cpu"
    sample_num := 1
    train_batches := [5]
    test_batches := some [2] }

/-- A concrete client constructed without a test dataset: test_batches is
none, mirroring the never-assigned self.test_dataloader. -/
def cNoTest : ClientState :=
  { args := ⟨⟨0⟩, ⟨4, 2, ⟨"sgd", 0⟩⟩⟩
    model := ⟨5, "cpu", false⟩
    device := "cpu"
    sample_num := 1
    train_batches := [1]
    test_batches := none }

/-- A second concrete client without a test dataset, for the amended
statement's witness. -/
def cNoTest2 : ClientState :=
  { args := ⟨⟨0⟩, ⟨4, 3, ⟨"sgd", 0⟩⟩⟩
    model := ⟨6, "cpu", false⟩
    device := "cpu"
    sample_num := 1
    train_batches := [1, 2]
    test_batches := none }

/-- A concrete client for the mutation witness: nonzero learning rate and a
single batch with nonzero gradient. -/
def cMut : ClientState :=
  { args := ⟨⟨0⟩, ⟨4, 2, ⟨"sgd", 0⟩⟩⟩
    model := ⟨3, "cpu", false⟩
    device := "cpu"
    sample_num := 1
    train_batches := [1]
    test_batches := some [2] }

/-- The executable rational floor agrees with the order-theoretic floor. -/
theorem ratFloor_eq_intFloor (q : ℚ) : q.floor = ⌊q⌋ := by
  rw [Rat.floor_def, Rat.floor_def']

/-- The split point k of base_client.py lines 45-46 never exceeds the shard
size when the validation fraction is nonnegative. -/
theorem pyInt_split_le (f : ℚ) (n : Nat) (hf0 : 0 ≤ f) :
    pyInt ((1 - f) * (n : ℚ)) ≤ n := by
  unfold pyInt
  rw [ratFloor_eq_intFloor]
  have hle : (1 - f) * (n : ℚ) ≤ (n : ℚ) := by
    have h1 : (1 - f) * (n : ℚ) ≤ 1 * (n : ℚ) :=
      mul_le_mul_of_nonneg_right (by linarith) (Nat.cast_nonneg n)
    simpa using h1
  have hfl : ⌊(1 - f) * (n : ℚ)⌋ ≤ (n : ℤ) := by
    calc ⌊(1 - f) * (n : ℚ)⌋ ≤ ⌊((n : ℚ))⌋ := Int.floor_le_floor hle
    _ = (n : ℤ) := Int.floor_natCast n
  omega

/-- The split point k is strictly below the shard size when the validation
fraction is positive and the shard is nonempty. -/
theorem pyInt_split_lt (f : ℚ) (n : Nat) (hf0 : 0 < f) (hn : 0 < n) :
    pyInt ((1 - f) * (n : ℚ)) < n := by
  unfold pyInt
  rw [ratFloor_eq_intFloor]
  have hlt : (1 - f) * (n : ℚ) < (n : ℚ) := by
    have hn' : (0 : ℚ) < (n : ℚ) := by exact_mod_cast hn
    nlinarith
  have hfl : ⌊(1 - f) * (n : ℚ)⌋ < (n : ℤ) := Int.floor_lt.mpr (by exact_mod_cast hlt)
  omega

/-- C2: for every training shard and every validation fraction f in (0,1),
client construction partitions the shard's index set: the train-subset size
plus the validation-subset size equals the total shard size, the two index
sets are disjoint, their union covers all original indexes exactly once, and
the train subset has exactly int((1 - f) * shard size) indexes. -/
theorem clientInit_partitions {α : Type} (args : Args) (d : IndexedDataset α)
    (shuffled : List Nat) (b : Bool)
    (hf0 : 0 < args.client.val_frac) (hf1 : args.client.val_frac < 1)
    (hperm : shuffled.Perm d.indexes) (hnd : d.indexes.Nodup) :
    (clientInit args d shuffled b).train_index.length
        + ((clientInit args d shuffled b).val_index.getD []).length = d.indexes.length
    ∧ (clientInit args d shuffled b).train_index.Disjoint
        ((clientInit args d shuffled b).val_index.getD [])
    ∧ ((clientInit args d shuffled b).train_index
        ++ (clientInit args d shuffled b).val_index.getD []).Perm d.indexes
    ∧ (clientInit args d shuffled b).train_index.length
        = pyInt ((1 - args.client.val_frac) * (d.indexes.length : ℚ)) := by
  have hne : args.client.val_frac ≠ 0 := ne_of_gt hf0
  have hlen : shuffled.length = d.indexes.length := hperm.length_eq
  have hk : pyInt ((1 - args.client.val_frac) * (d.indexes.length : ℚ)) ≤ shuffled.length := by
    rw [hlen]
    exact pyInt_split_le _ _ (le_of_lt hf0)
  simp only [clientInit, if_neg hne, IndexedDataset.setIndexes, IndexedDataset.len,
    Option.getD_some]
  refine ⟨?_, ?_, ?_, ?_⟩
  · rw [List.length_take, List.length_drop]
    omega
  · exact List.disjoint_take_drop (hperm.nodup_iff.mpr hnd) (le_refl _)
  · rw [List.take_append_drop]
    exact hperm
  · rw [List.length_take]
    omega

/-- Concrete run of clientInit_partitions: a 100-sample shard with
val_frac = 1/5 yields an 80-index train subset and a 20-index validation
subset that partition the original 100 indexes. -/
theorem clientInit_partitions_witness :
    (0 : ℚ) < 1/5 ∧ (1 : ℚ)/5 < 1
    ∧ pyInt ((1 - (1 : ℚ)/5) * ((100 : Nat) : ℚ)) = 80
    ∧ (clientInit ⟨⟨1/5⟩, ⟨32, 1, ⟨"sgd", 0⟩⟩⟩
        (⟨List.range 100, List.range 100⟩ : IndexedDataset Nat)
        (List.range 100) true).train_index.length
        + ((clientInit ⟨⟨1/5⟩, ⟨32, 1, ⟨"sgd", 0⟩⟩⟩
            (⟨List.range 100, List.range 100⟩ : IndexedDataset Nat)
            (List.range 100) true).val_index.getD []).length
        = (List.range 100).length
    ∧ (clientInit ⟨⟨1/5⟩, ⟨32, 1, ⟨"sgd", 0⟩⟩⟩
        (⟨List.range 100, List.range 100⟩ : IndexedDataset Nat)
        (List.range 100) true).train_index.Disjoint
        ((clientInit ⟨⟨1/5⟩, ⟨32, 1, ⟨"sgd", 0⟩⟩⟩
            (⟨List.range 100, List.range 100⟩ : IndexedDataset Nat)
            (List.range 100) true).val_index.getD [])
    ∧ ((clientInit ⟨⟨1/5⟩, ⟨32, 1, ⟨"sgd", 0⟩⟩⟩
        (⟨List.range 100, List.range 100⟩ : IndexedDataset Nat)
        (List.range 100) true).train_index
        ++ (clientInit ⟨⟨1/5⟩, ⟨32, 1, ⟨"sgd", 0⟩⟩⟩
            (⟨List.range 100, List.range 100⟩ : IndexedDataset Nat)
            (List.range 100) true).val_index.getD []).Perm (List.range 100)
    ∧ (clientInit ⟨⟨1/5⟩, ⟨32, 1, ⟨"sgd", 0⟩⟩⟩
        (⟨List.range 100, List.range 100⟩ : IndexedDataset Nat)
        (List.range 100) true).train_index.length
        = pyInt ((1 - (1 : ℚ)/5) * (((List.range 100).length : Nat) : ℚ)) := by
  have hfloor : pyInt ((1 - (1 : ℚ)/5) * ((100 : Nat) : ℚ)) = 80 := by
    unfold pyInt
    rw [ratFloor_eq_intFloor]
    norm_num
    decide
  have happ := clientInit_partitions (⟨⟨1/5⟩, ⟨32, 1, ⟨"sgd", 0⟩⟩⟩ : Args)
    (⟨List.range 100, List.range 100⟩ : IndexedDataset Nat) (List.range 100) true
    (by norm_num) (by norm_num) (List.Perm.refl _) (List.nodup_range 100)
  exact ⟨by norm_num, by norm_num, hfloor, happ.1, happ.2.1, happ.2.2.1, happ.2.2.2⟩

/-- C3: sample_num equals the realized training-subset length; with a positive
validation fraction below one and a nonempty shard it is strictly below the
raw shard length, and with a zero fraction it equals the full shard length. -/
theorem sample_num_realized {α : Type} (args : Args) (d : IndexedDataset α)
    (shuffled : List Nat) (b : Bool)
    (hperm : shuffled.Perm d.indexes) (hn : 0 < d.indexes.length) :
    (args.client.val_frac = 0 →
      (clientInit args d shuffled b).sample_num = d.indexes.length)
    ∧ (0 < args.client.val_frac → args.client.val_frac < 1 →
      (clientInit args d shuffled b).sample_num
          = (clientInit args d shuffled b).train_index.length
      ∧ (clientInit args d shuffled b).sample_num < d.indexes.length) := by
  constructor
  · intro h0
    simp [clientInit, h0, IndexedDataset.len]
  · intro hf0 hf1
    have hne : args.client.val_frac ≠ 0 := ne_of_gt hf0
    have hlen : shuffled.length = d.indexes.length := hperm.length_eq
    have hk : pyInt ((1 - args.client.val_frac) * (d.indexes.length : ℚ)) < d.indexes.length :=
      pyInt_split_lt _ _ hf0 hn
    simp only [clientInit, if_neg hne, IndexedDataset.setIndexes, IndexedDataset.len]
    constructor
    · trivial
    · rw [List.length_take]
      omega

/-- Concrete run of sample_num_realized: the 100-sample shard with
val_frac = 1/5 has sample_num 80, the realized train-subset length. -/
theorem sample_num_realized_witness :
    (List.range 100).Perm (List.range 100) ∧ 0 < (List.range 100).length
    ∧ (((⟨⟨1/5⟩, ⟨32, 1, ⟨"sgd", 0⟩⟩⟩ : Args).client.val_frac = 0 →
      (clientInit ⟨⟨1/5⟩, ⟨32, 1, ⟨"sgd", 0⟩⟩⟩
        (⟨List.range 100, List.range 100⟩ : IndexedDataset Nat)
        (List.range 100) true).sample_num = (List.range 100).length)
    ∧ (0 < (⟨⟨1/5⟩, ⟨32, 1, ⟨"sgd", 0⟩⟩⟩ : Args).client.val_frac →
      (⟨⟨1/5⟩, ⟨32, 1, ⟨"sgd", 0⟩⟩⟩ : Args).client.val_frac < 1 →
      (clientInit ⟨⟨1/5⟩, ⟨32, 1, ⟨"sgd", 0⟩⟩⟩
        (⟨List.range 100, List.range 100⟩ : IndexedDataset Nat)
        (List.range 100) true).sample_num
          = (clientInit ⟨⟨1/5⟩, ⟨32, 1, ⟨"sgd", 0⟩⟩⟩
            (⟨List.range 100, List.range 100⟩ : IndexedDataset Nat)
            (List.range 100) true).train_index.length
      ∧ (clientInit ⟨⟨1/5⟩, ⟨32, 1, ⟨"sgd", 0⟩⟩⟩
          (⟨List.range 100, List.range 100⟩ : IndexedDataset Nat)
          (List.range 100) true).sample_num < (List.range 100).length)) :=
  ⟨List.Perm.refl _, by simp,
    sample_num_realized (⟨⟨1/5⟩, ⟨32, 1, ⟨"sgd", 0⟩⟩⟩ : Args)
      (⟨List.range 100, List.range 100⟩ : IndexedDataset Nat) (List.range 100) true
      (List.Perm.refl _) (by simp)⟩

/-- C4: after the active index subset of a dataset adapter is reassigned,
len() returns the size of the active index subset, not the size of the
underlying full dataset; concretely, reassigning an adapter over a 100-sample
base to an 80-index subset gives length 80 while the base keeps 100 samples. -/
theorem indexedDataset_len_active_subset {α : Type} (d : IndexedDataset α)
    (newIxs : List Nat) :
    (d.setIndexes newIxs).len = newIxs.length
    ∧ (d.setIndexes newIxs).base.length = d.base.length
    ∧ ((⟨List.range 100, List.range 100⟩ : IndexedDataset Nat).setIndexes
        (List.range 80)).len = 80
    ∧ ((⟨List.range 100, List.range 100⟩ : IndexedDataset Nat).setIndexes
        (List.range 80)).base.length = 100 :=
  ⟨rfl, rfl, by simp [IndexedDataset.setIndexes, IndexedDataset.len],
    by simp [IndexedDataset.setIndexes]⟩

/-- C5 (code bug): MNISTDataset getitem returns the bare (sample, label) pair
of the underlying dataset, not a structured record with input and class_id
fields, while CIFAR100Dataset getitem does return the record. -/
theorem mnist_getitem_raw_pair :
    MNISTDataset.getItem [((7 : Nat), 3)] 0 = some (Item.rawPair 7 3)
    ∧ (Item.rawPair (7 : Nat) 3).isRecord = false
    ∧ CIFAR100Dataset.getItem [((7 : Nat), 3)] 0 = some (Item.record 7 3)
    ∧ (Item.record (7 : Nat) 3).isRecord = true :=
  ⟨rfl, rfl, rfl, rfl⟩

/-- C9 (code bug): with a configuration exposing data.transforms and
data.data_path, the MNIST adapter constructor reads the dataset location from
data.data_path, but the CIFAR100 adapter constructor reads the misspelled
field data.data_pathpath and raises AttributeError. -/
theorem cifar_init_wrong_config_field :
    MNISTDataset.init documentedDataCfg true
      = Except.ok ⟨"./data", true, "default", true⟩
    ∧ CIFAR100Dataset.init documentedDataCfg true
      = Except.error PyError.attributeError :=
  ⟨rfl, rfl⟩

/-- A finetune epoch loop that returns normally yields exactly one metrics
record per epoch. -/
theorem finetuneLoop_ok_length (lr : ℚ) (step : Step) (tev : TestEval) :
    ∀ (n : Nat) (o : ℚ) (c : ClientState) (r : List Metrics × ClientState),
      finetuneLoop lr step tev n o c = .ok r → r.1.length = n := by
  intro n
  induction n with
  | zero =>
    intro o c r h
    simp only [finetuneLoop] at h
    injection h with h'
    subst h'
    rfl
  | succ n ih =>
    intro o c r h
    simp only [finetuneLoop] at h
    split at h
    · exact Except.noConfusion h
    · split at h
      · exact Except.noConfusion h
      · split at h
        · exact Except.noConfusion h
        · rename_i infos c3 heq
          injection h with h'
          subst h'
          simpa using ih _ _ _ heq

/-- C1: a finetune call that returns leaves the model observable through the
client bit-identical to the pre-call model (the snapshot is restored whole),
restores the device, and hands the caller exactly one metrics record per
finetune epoch — never the finetuned weights. -/
theorem finetune_preserves_model (c : ClientState) (lr : ℚ)
    (finetune_args : List String) (device : Option String)
    (finetune_eps : Option Nat) (step : Step) (tev : TestEval)
    (r : List Metrics × ClientState)
    (h : finetune c lr finetune_args device finetune_eps step tev = .ok r) :
    r.2.model = c.model ∧ r.2.device = c.device
    ∧ r.1.length = finetune_eps.getD c.args.learn.local_eps := by
  simp only [finetune] at h
  split at h
  · exact Except.noConfusion h
  · rename_i info c1 heq
    injection h with h'
    subst h'
    exact ⟨rfl, rfl, finetuneLoop_ok_length lr step tev _ _ _ (info, c1) heq⟩

/-- Concrete run of finetune_preserves_model: a one-epoch finetune returns
one metrics record and the client's model and device are exactly the
pre-call ones. -/
theorem finetune_preserves_model_witness :
    finetune cW 1 [] none none okStep tevOk = .ok ([[]], cW)
    ∧ (([([] : Metrics)], cW) : List Metrics × ClientState).2.model = cW.model
    ∧ (([([] : Metrics)], cW) : List Metrics × ClientState).2.device = cW.device
    ∧ (([([] : Metrics)], cW) : List Metrics × ClientState).1.length
      = (none : Option Nat).getD cW.args.learn.local_eps :=
  ⟨rfl,
    (finetune_preserves_model cW 1 [] none none okStep tevOk ([[]], cW) rfl).1,
    (finetune_preserves_model cW 1 [] none none okStep tevOk ([[]], cW) rfl).2.1,
    (finetune_preserves_model cW 1 [] none none okStep tevOk ([[]], cW) rfl).2.2⟩

/-- C6: with local_eps = 0 the train loop body never runs: train returns the
empty metrics mapping and the model parameters are unchanged (the model is
merely switched to train mode and parked on cpu). -/
theorem train_zero_eps (c : ClientState) (lr : ℚ) (device : Option String)
    (step : Step) (h0 : c.args.learn.local_eps = 0) :
    train c lr device step
      = .ok ([], { c with model := { c.model with training := true, device := "cpu" } }) := by
  simp only [train, h0, runEpochs, variableMean, monitorNames, List.foldl_nil,
    List.dedup_nil, List.map_nil]

/-- Concrete run of train_zero_eps on a client configured with zero local
epochs. -/
theorem train_zero_eps_witness :
    cZeroEps.args.learn.local_eps = 0
    ∧ train cZeroEps 1 none (sgdStep 0)
      = .ok ([], { cZeroEps with
          model := { cZeroEps.model with training := true, device := "cpu" } }) :=
  ⟨rfl, train_zero_eps cZeroEps 1 none (sgdStep 0) rfl⟩

/-- Closed form of one training pass under plain SGD (momentum 0): the
parameter decreases by the learning rate times the sum of the batch
gradients. -/
theorem runPass_sgd0 (lr : ℚ) :
    ∀ (batches : List ℚ) (o w : ℚ),
      runPass lr (sgdStep 0) o w batches
        = .ok (batches.foldl (fun _ bch => bch) o, w - lr * batches.sum,
            batches.map fun bch => ⟨[("train_acc", 0), ("train_loss", bch)], 1⟩) := by
  intro batches
  induction batches with
  | nil =>
    intro o w
    simp [runPass]
  | cons b rest ih =>
    intro o w
    simp only [runPass, sgdStep, ih, List.foldl_cons, List.sum_cons, List.map_cons]
    simp [zero_mul, zero_add, mul_add, sub_sub]

/-- Closed form of the train epoch loop under plain SGD: after n epochs the
parameter has decreased by n times the per-pass decrement. -/
theorem runEpochs_sgd0 (lr : ℚ) (batches : List ℚ) :
    ∀ (n : Nat) (o w : ℚ), ∃ o2 mon,
      runEpochs lr (sgdStep 0) n o w batches
        = .ok (o2, w - lr * (n : ℚ) * batches.sum, mon) := by
  intro n
  induction n with
  | zero =>
    intro o w
    exact ⟨o, [], by simp [runEpochs]⟩
  | succ n ih =>
    intro o w
    obtain ⟨o2, mon2, h2⟩ := ih (batches.foldl (fun _ bch => bch) o) (w - lr * batches.sum)
    refine ⟨o2,
      (batches.map fun bch => ⟨[("train_acc", 0), ("train_loss", bch)], 1⟩) ++ mon2, ?_⟩
    simp only [runEpochs, runPass_sgd0, h2]
    have harith : w - lr * batches.sum - lr * (n : ℚ) * batches.sum
        = w - lr * (((n : Nat) + 1 : Nat) : ℚ) * batches.sum := by
      push_cast
      ring
    rw [harith]

/-- C7 counterexample: with learning rate 0 the SGD update is a no-op, so a
train call on a client with local_eps = 1 and a nonempty training set leaves
every parameter bit-identical to its pre-call value — the claimed mutation
fails for that call. -/
theorem train_lr_zero_counterexample :
    cLrZero.args.learn.local_eps = 1
    ∧ cLrZero.train_batches.length = 1
    ∧ (train cLrZero 0 none (sgdStep 0)).toOption.map (fun r => r.2.model.params)
      = some cLrZero.model.params := by
  refine ⟨rfl, rfl, ?_⟩
  obtain ⟨o2, mon, h⟩ :=
    runEpochs_sgd0 0 cLrZero.train_batches cLrZero.args.learn.local_eps 0
      cLrZero.model.params
  simp only [train]
  rw [h]
  simp [Except.toOption]

/-- C7 (amended): train applies the per-batch optimizer updates to the model
in place; under the SGD optimizer with momentum 0, whenever local_eps >= 1,
the learning rate is nonzero and the training batches' gradients do not
cancel (nonzero sum), the post-call parameter differs from the pre-call
parameter. -/
theorem train_mutates_params (c : ClientState) (lr : ℚ) (device : Option String)
    (heps : 1 ≤ c.args.learn.local_eps) (hlr : lr ≠ 0)
    (hsum : c.train_batches.sum ≠ 0) :
    (train c lr device (sgdStep 0)).toOption.map (fun r => r.2.model.params)
      = some (c.model.params - lr * (c.args.learn.local_eps : ℚ) * c.train_batches.sum)
    ∧ c.model.params - lr * (c.args.learn.local_eps : ℚ) * c.train_batches.sum
      ≠ c.model.params := by
  obtain ⟨o2, mon, h⟩ :=
    runEpochs_sgd0 lr c.train_batches c.args.learn.local_eps 0 c.model.params
  constructor
  · simp only [train]
    rw [h]
    simp [Except.toOption]
  · intro hEq
    have h0 : lr * (c.args.learn.local_eps : ℚ) * c.train_batches.sum = 0 :=
      sub_eq_self.mp hEq
    have hepsQ : ((c.args.learn.local_eps : Nat) : ℚ) ≠ 0 := by
      have h1 : 0 < c.args.learn.local_eps := Nat.lt_of_lt_of_le Nat.zero_lt_one heps
      exact_mod_cast Nat.pos_iff_ne_zero.mp h1
    rcases mul_eq_zero.mp h0 with h1 | h1
    · rcases mul_eq_zero.mp h1 with h2 | h2
      · exact hlr h2
      · exact hepsQ h2
    · exact hsum h1

/-- Concrete run of train_mutates_params: learning rate 1, two epochs over a
single batch with gradient 1 move the parameter from 3 to 1. -/
theorem train_mutates_params_witness :
    1 ≤ cMut.args.learn.local_eps
    ∧ ((1 : ℚ) ≠ 0)
    ∧ (cMut.train_batches.sum ≠ 0)
    ∧ ((train cMut 1 none (sgdStep 0)).toOption.map (fun r => r.2.model.params)
        = some (cMut.model.params - 1 * (cMut.args.learn.local_eps : ℚ) * cMut.train_batches.sum)
      ∧ cMut.model.params - 1 * (cMut.args.learn.local_eps : ℚ) * cMut.train_batches.sum
        ≠ cMut.model.params) :=
  ⟨by decide, by norm_num, by norm_num [cMut],
    train_mutates_params cMut 1 none (by decide) (by norm_num) (by norm_num [cMut])⟩

/-- C8 counterexample: an exception raised from the per-batch training loop
of train propagates before any restore logic runs — the device override and
the accelerator placement of the model persist in the client state observable
after the raise; nothing is moved back to cpu. -/
theorem train_exception_leaks_device :
    train cRaise 1 (some "cuda:0") raisingStep
      = .error (.runtimeError,
          { cRaise with
            device := "cuda:0"
            model := { cRaise.model with training := true, device := "cuda:0" } })
    ∧ (("cuda:0" == "cpu") = false) :=
  ⟨rfl, by decide⟩

/-- C8 (amended): on successful exits, train and test move the model back to
cpu and restore the device field, and finetune restores the snapshot model
and the original device; an exception from the per-batch loop instead
propagates before the restore logic runs, since the source has no
try/finally. -/
theorem success_paths_restore (c1 c2 c3 : ClientState) (lr : ℚ)
    (dev : Option String) (step : Step) (tev : TestEval)
    (fa : List String) (feps : Option Nat)
    (r1 : Metrics × ClientState) (r2 : Metrics × ClientState)
    (r3 : List Metrics × ClientState)
    (h1 : train c1 lr dev step = .ok r1)
    (h2 : test c2 tev = .ok r2)
    (h3 : finetune c3 lr fa dev feps step tev = .ok r3) :
    r1.2.model.device = "cpu" ∧ r1.2.device = c1.device
    ∧ r2.2.model.device = "cpu" ∧ r2.2.device = c2.device
    ∧ r3.2.model = c3.model ∧ r3.2.device = c3.device := by
  have ht : r1.2.model.device = "cpu" ∧ r1.2.device = c1.device := by
    simp only [train] at h1
    split at h1
    · exact Except.noConfusion h1
    · injection h1 with h'
      subst h'
      exact ⟨rfl, rfl⟩
  have hs : r2.2.model.device = "cpu" ∧ r2.2.device = c2.device := by
    simp only [test] at h2
    split at h2
    · exact Except.noConfusion h2
    · injection h2 with h'
      subst h'
      exact ⟨rfl, rfl⟩
  have hf : r3.2.model = c3.model ∧ r3.2.device = c3.device := by
    simp only [finetune] at h3
    split at h3
    · exact Except.noConfusion h3
    · injection h3 with h'
      subst h'
      exact ⟨rfl, rfl⟩
  exact ⟨ht.1, ht.2, hs.1, hs.2, hf.1, hf.2⟩

/-- Concrete runs of success_paths_restore: a zero-epoch train with a device
override, a test with a test loader, and a one-epoch finetune all return
normally with the model on cpu (train/test), the device restored, and the
finetune snapshot restored. -/
theorem success_paths_restore_witness :
    train cZeroEps 1 (some "cuda:0") okStep
      = .ok ([], { cZeroEps with
          model := { cZeroEps.model with training := true, device := "cpu" } })
    ∧ test cMut tevOk
      = .ok ([], { cMut with
          model := { cMut.model with training := false, device := "cpu" } })
    ∧ finetune cMut 1 [] none (some 1) okStep tevOk = .ok ([[]], cMut)
    ∧ (([], { cZeroEps with
          model := { cZeroEps.model with training := true, device := "cpu" } })
        : Metrics × ClientState).2.model.device = "cpu"
    ∧ (([], { cZeroEps with
          model := { cZeroEps.model with training := true, device := "cpu" } })
        : Metrics × ClientState).2.device = cZeroEps.device
    ∧ (([], { cMut with
          model := { cMut.model with training := false, device := "cpu" } })
        : Metrics × ClientState).2.model.device = "cpu"
    ∧ (([], { cMut with
          model := { cMut.model with training := false, device := "cpu" } })
        : Metrics × ClientState).2.device = cMut.device
    ∧ (([([] : Metrics)], cMut) : List Metrics × ClientState).2.model = cMut.model
    ∧ (([([] : Metrics)], cMut) : List Metrics × ClientState).2.device = cMut.device := by
  have happ := success_paths_restore cZeroEps cMut cMut 1 (some "cuda:0") okStep tevOk
    [] (some 1)
    ([], { cZeroEps with
      model := { cZeroEps.model with training := true, device := "cpu" } })
    ([], { cMut with
      model := { cMut.model with training := false, device := "cpu" } })
    ([[]], cMut) rfl rfl rfl
  exact ⟨rfl, rfl, rfl, happ.1, happ.2.1, happ.2.2.1, happ.2.2.2.1,
    happ.2.2.2.2.1, happ.2.2.2.2.2⟩

/-- A pass of the per-batch loop with a never-raising step always returns
normally. -/
theorem runPass_lift_ok (lr : ℚ) (f : ℚ → ℚ → ℚ → ℚ → ℚ × ℚ × MetricEntry) :
    ∀ (batches : List ℚ) (o w : ℚ), ∃ o2 w2 mon,
      runPass lr (liftStep f) o w batches = .ok (o2, w2, mon) := by
  intro batches
  induction batches with
  | nil =>
    intro o w
    exact ⟨o, w, [], rfl⟩
  | cons b rest ih =>
    intro o w
    obtain ⟨o2, w2, mon, hp⟩ := ih (f lr o w b).1 (f lr o w b).2.1
    exact ⟨o2, w2, (f lr o w b).2.2 :: mon, by simp [runPass, liftStep, hp]⟩

/-- C10 counterexample: a client constructed without a test dataset still
completes a finetune call with finetune_eps = 0 successfully, returning the
empty metrics sequence, because no epoch ever reaches the test() call. -/
theorem finetune_zero_eps_without_test :
    cNoTest.test_batches = none
    ∧ finetune cNoTest 1 [] none (some 0) (sgdStep 0) tevOk = .ok ([], cNoTest) :=
  ⟨rfl, rfl⟩

/-- C10 (amended): when the client was constructed without a test dataset no
test loader exists: test() raises AttributeError, and a finetune that runs at
least one epoch (with a per-batch step that itself raises nothing) reaches
the epoch-end test() call and raises AttributeError as well; only a
zero-epoch finetune returns. -/
theorem no_test_loader_fails (c : ClientState) (tev : TestEval) (lr : ℚ)
    (fa : List String) (dev : Option String) (feps : Option Nat)
    (f : ℚ → ℚ → ℚ → ℚ → ℚ × ℚ × MetricEntry)
    (hnone : c.test_batches = none)
    (heps : 0 < feps.getD c.args.learn.local_eps) :
    test c tev = .error (.attributeError,
      { c with model := { c.model with training := false, device := c.device } })
    ∧ ∃ s, finetune c lr fa dev feps (liftStep f) tev
        = .error (.attributeError, s) := by
  constructor
  · simp [test, hnone]
  · obtain ⟨k, hk⟩ : ∃ k, feps.getD c.args.learn.local_eps = k + 1 :=
      ⟨feps.getD c.args.learn.local_eps - 1, by omega⟩
    obtain ⟨o2, w2, mon, hp⟩ :=
      runPass_lift_ok lr f c.train_batches 0 c.model.params
    simp only [finetune, hk, finetuneLoop]
    rw [hp]
    simp only [test, hnone]
    exact ⟨_, rfl⟩

/-- Concrete run of no_test_loader_fails: a client without a test dataset,
three default finetune epochs. -/
theorem no_test_loader_fails_witness :
    cNoTest2.test_batches = none
    ∧ 0 < (none : Option Nat).getD cNoTest2.args.learn.local_eps
    ∧ (test cNoTest2 tevOk = .error (.attributeError,
        { cNoTest2 with
          model := { cNoTest2.model with training := false, device := cNoTest2.device } })
      ∧ ∃ s, finetune cNoTest2 1 [] none none
          (liftStep fun _ o w _ => (o, w, ⟨[], 1⟩)) tevOk
          = .error (.attributeError, s)) :=
  ⟨rfl, by decide,
    no_test_loader_fails cNoTest2 tevOk 1 [] none none
      (fun _ o w _ => (o, w, ⟨[], 1⟩)) rfl (by decide)⟩

end Fling
